import Mathlib

/-!
Shallow embedding of the blood-donor-matching backend (Express/Mongoose app):
the request lifecycle routes (`src/routes/requests.js`, `src/routes/patients.js`),
donor search (`src/routes/donors.js`), and the `User` / `BloodRequest` model
helpers (`isEligibleToDonate`, `getCompatibleBloodTypes`).

Conventions of the embedding:
* Mongo ObjectIds are `String` (the code compares them via `.toString()`).
* Timestamps (`Date.now()`, `new Date()`) are milliseconds as `Int`.
* The persistent store holds at most the one document a handler touches, so a
  lookup by id is an `Option BloodRequest`.
* HTTP error responses are modelled by `ErrKind` (404 NotFound, 400
  InvalidState/ValidationError, 403 Forbidden); where a route cannot
  distinguish causes (the cancel route's single `findOneAndUpdate`), the model
  returns the literal status code and message instead.
-/

/-- The `status` enum of the BloodRequest schema (`src/models/BloodRequest.js`). -/
inductive ReqStatus
  | active
  | matched
  | completed
  | cancelled
deriving DecidableEq, Repr

/-- The `matchedDonors[].status` enum of the BloodRequest schema. -/
inductive RespStatus
  | pending
  | accepted
  | declined
  | donationCompleted
deriving DecidableEq, Repr

/-- The `userType` enum of the User schema (in `src/server.js`). -/
inductive UserType
  | donor
  | patient
  | admin
deriving DecidableEq, Repr

/-- One entry of `BloodRequest.matchedDonors` (subdocument schema). -/
structure MatchedDonor where
  donor : String
  status : RespStatus
  matchedAt : Int
  respondedAt : Option Int
  notes : Option String
deriving DecidableEq, Repr

/-- The BloodRequest document (`src/models/BloodRequest.js`), restricted to the
fields the lifecycle routes read or write. -/
structure BloodRequest where
  patient : String
  bloodType : String
  urgency : String
  hospitalName : String
  hospitalCoordinates : List Int
  requiredUnits : Nat
  status : ReqStatus
  matchedDonors : List MatchedDonor
  completedAt : Option Int
  cancelledAt : Option Int
  cancellationReason : Option String
deriving DecidableEq, Repr

/-- The User document (model in `src/server.js`), restricted to the fields
donor search and eligibility read. `password` and `medicalHistory` are kept so
that the search projection contract is expressible. -/
structure User where
  id : String
  name : String
  userType : UserType
  bloodType : String
  isVerified : Bool
  isAvailable : Bool
  lastDonationDate : Option Int
  password : String
  medicalHistory : List String
deriving DecidableEq, Repr

/-- The `getCompatibleBloodTypes` helper of `src/routes/donors.js` (lines 190-203):
object lookup keyed by the recipient blood type, `|| []` for unknown keys. -/
def getCompatibleBloodTypes (bloodType : String) : List String :=
  match bloodType with
  | "A+" => ["A+", "A-", "O+", "O-"]
  | "A-" => ["A-", "O-"]
  | "B+" => ["B+", "B-", "O+", "O-"]
  | "B-" => ["B-", "O-"]
  | "AB+" => ["A+", "A-", "B+", "B-", "AB+", "AB-", "O+", "O-"]
  | "AB-" => ["A-", "B-", "AB-", "O-"]
  | "O+" => ["O+", "O-"]
  | "O-" => ["O-"]
  | _ => []

/-- The method `bloodRequestSchema.methods.getCompatibleBloodTypes` of
`src/models/BloodRequest.js` (lines 98-111): the second copy of the table,
keyed by `this.bloodType`. -/
def BloodRequest.getCompatibleBloodTypesMethod (r : BloodRequest) : List String :=
  match r.bloodType with
  | "A+" => ["A+", "A-", "O+", "O-"]
  | "A-" => ["A-", "O-"]
  | "B+" => ["B+", "B-", "O+", "O-"]
  | "B-" => ["B-", "O-"]
  | "AB+" => ["A+", "A-", "B+", "B-", "AB+", "AB-", "O+", "O-"]
  | "AB-" => ["A-", "B-", "AB-", "O-"]
  | "O+" => ["O+", "O-"]
  | "O-" => ["O-"]
  | _ => []

/-- The eight canonical ABO/Rh types (User and BloodRequest schema enum). -/
def canonicalBloodTypes : List String :=
  ["A+", "A-", "B+", "B-", "AB+", "AB-", "O+", "O-"]

/-- The method `userSchema.methods.isEligibleToDonate` (User model in `src/server.js`,
lines 177-189). The JS computes
`(Date.now() - lastDonationDate.getTime()) / (1000*60*60*24) < 56` with real
division; over the reals that comparison is exactly
`now - t < 56 * (1000*60*60*24)`, which is how it is written here. -/
def isEligibleToDonate (u : User) (now : Int) : Bool :=
  if u.userType ≠ UserType.donor then false
  else if !u.isAvailable then false
  else if !u.isVerified then false
  else
    match u.lastDonationDate with
    | some t => if now - t < 56 * (1000 * 60 * 60 * 24) then false else true
    | none => true

/-- Distinguishable error kinds of the lifecycle handlers, with the HTTP
status codes and messages each route sends. -/
inductive ErrKind
  | notFound
  | invalidState
  | forbidden
  | validationError
deriving DecidableEq, Repr

/-- Decidable equality for handler results, so concrete runs can be settled
by `decide`. -/
def Except.decEqResult {ε α : Type} [DecidableEq ε] [DecidableEq α] :
    DecidableEq (Except ε α) := fun a b =>
  match a, b with
  | .error e, .error f =>
    if h : e = f then .isTrue (congrArg Except.error h)
    else .isFalse fun c => h (Except.error.inj c)
  | .ok x, .ok y =>
    if h : x = y then .isTrue (congrArg Except.ok h)
    else .isFalse fun c => h (Except.ok.inj c)
  | .error _, .ok _ => .isFalse Except.noConfusion
  | .ok _, .error _ => .isFalse Except.noConfusion

instance {ε α : Type} [DecidableEq ε] [DecidableEq α] :
    DecidableEq (Except ε α) := Except.decEqResult

/-- The find-or-push over `request.matchedDonors` in `POST /:id/respond`
(`src/routes/requests.js`, lines 94-111): `Array.prototype.find` locates the
first entry whose `donor.toString()` equals the responding donor's id and
mutates its `status`, `respondedAt`, `notes` in place; otherwise a new entry
is pushed (its `matchedAt` takes the schema default `Date.now`). -/
def updateMatchedDonors (donorId : String) (st : RespStatus) (now : Int)
    (notes : Option String) : List MatchedDonor → List MatchedDonor
  | [] => [{ donor := donorId, status := st, matchedAt := now,
             respondedAt := some now, notes := notes }]
  | e :: es =>
    if e.donor = donorId then
      { donor := e.donor, status := st, matchedAt := e.matchedAt,
        respondedAt := some now, notes := notes } :: es
    else
      e :: updateMatchedDonors donorId st now notes es

/-- The successful-path mutation of `POST /:id/respond`
(`src/routes/requests.js`, lines 94-116): the find-or-push on
`matchedDonors` followed by `if (status === 'accepted' && request.status ===
'active') request.status = 'matched'`. -/
def applyResponse (r : BloodRequest) (donorId : String) (st : RespStatus)
    (notes : Option String) (now : Int) : BloodRequest :=
  let donors := updateMatchedDonors donorId st now notes r.matchedDonors
  let newStatus :=
    if st = RespStatus.accepted ∧ r.status = ReqStatus.active then
      ReqStatus.matched
    else r.status
  { r with matchedDonors := donors, status := newStatus }

/-- The pure mutation of `POST /:id/respond` (`src/routes/requests.js`,
lines 84-116) once the request has been fetched: the status guard
(`400 'Request is no longer active'` unless status is active or matched),
then `applyResponse`. -/
def respondToRequest (r : BloodRequest) (donorId : String) (st : RespStatus)
    (notes : Option String) (now : Int) : Except ErrKind BloodRequest :=
  if r.status ≠ ReqStatus.active ∧ r.status ≠ ReqStatus.matched then
    .error .invalidState
  else
    .ok (applyResponse r donorId st notes now)

/-- Operation `RecordDonorResponse` including the `findById` lookup: `NotFound` when the
request is absent (`src/routes/requests.js`, lines 84-89). -/
def recordDonorResponse (db : Option BloodRequest) (donorId : String)
    (st : RespStatus) (notes : Option String) (now : Int) :
    Except ErrKind BloodRequest :=
  match db with
  | none => .error .notFound
  | some r => respondToRequest r donorId st notes now

/-- The Notification document built by the respond route
(`src/routes/requests.js`, lines 119-132). -/
structure Notification where
  recipient : String
  type : String
  title : String
  message : String
  priority : String
deriving DecidableEq, Repr

/-- Observable outcome of one respond-handler invocation: the persisted
request document after the handler ran (the `await request.save()` state),
the HTTP status sent, and the notification document if one was saved. -/
structure RespondOutcome where
  db : Option BloodRequest
  httpStatus : Nat
  savedNotification : Option Notification
deriving DecidableEq, Repr

/-- The whole `POST /:id/respond` handler (`src/routes/requests.js`,
lines 84-143). `notifSaveFails` models `notification.save()` throwing: the
route's single `try/catch` wraps both saves, so a notification failure is
caught AFTER `await request.save()` has already persisted the mutation and
the catch block answers 500 — the document store is not rolled back. -/
def respondHandler (db : Option BloodRequest) (donorId : String)
    (st : RespStatus) (notes : Option String) (now : Int)
    (notifSaveFails : Bool) : RespondOutcome :=
  match db with
  | none => { db := none, httpStatus := 404, savedNotification := none }
  | some r =>
    match respondToRequest r donorId st notes now with
    | .error _ => { db := some r, httpStatus := 400, savedNotification := none }
    | .ok r' =>
      if notifSaveFails then
        { db := some r', httpStatus := 500, savedNotification := none }
      else
        { db := some r'
          httpStatus := 200
          savedNotification := some
            { recipient := r.patient, type := "donor_response",
              title := "Donor Response",
              message := "A donor has responded to your blood request",
              priority := if st = RespStatus.accepted then "high" else "medium" } }

/-- Per-user mutation issued by `User.findByIdAndUpdate` in the complete
route: sets `lastDonationDate` and `isAvailable` on the given user. -/
structure UserUpdate where
  userId : String
  lastDonationDate : Int
  isAvailable : Bool
deriving DecidableEq, Repr

/-- The request mutation of the complete route: `request.status =
'completed'; request.completedAt = new Date()`. -/
def completedReq (r : BloodRequest) (now : Int) : BloodRequest :=
  { r with status := ReqStatus.completed, completedAt := some now }

/-- Route `POST /:id/complete` (`src/routes/requests.js`, lines 147-201): 404 when
absent; 403 when the caller is neither the owning patient nor a donor whose
matched-donor entry is `accepted` (`matchedDonors.some(...)`); 400 when
status is not `matched`. On success the request becomes `completedReq r now`,
and when `matchedDonors.find(m => m.status === 'accepted')` yields an entry,
that (first accepted) donor's user record gets `lastDonationDate := now`,
`isAvailable := false`; with no accepted entry no user record is touched. -/
def completeRequest (db : Option BloodRequest) (userId : String) (now : Int) :
    Except ErrKind (BloodRequest × List UserUpdate) :=
  match db with
  | none => .error .notFound
  | some r =>
    if ¬(r.patient = userId) ∧
        ¬(∃ m ∈ r.matchedDonors,
            m.donor = userId ∧ m.status = RespStatus.accepted) then
      .error .forbidden
    else if r.status ≠ ReqStatus.matched then .error .invalidState
    else
      match r.matchedDonors.find? (fun m => m.status = RespStatus.accepted) with
      | some m =>
        .ok (completedReq r now,
          [{ userId := m.donor, lastDonationDate := now, isAvailable := false }])
      | none => .ok (completedReq r now, [])

/-- Observable outcome of the cancel route: persisted document, HTTP status,
response message. -/
structure CancelOutcome where
  db : Option BloodRequest
  httpStatus : Nat
  message : String
deriving DecidableEq, Repr

/-- The update document of the cancel route: `status: 'cancelled',
cancelledAt: new Date(), cancellationReason: reason`. -/
def cancelledReq (r : BloodRequest) (reason : Option String) (now : Int) :
    BloodRequest :=
  { r with status := ReqStatus.cancelled, cancelledAt := some now, cancellationReason := reason }

/-- Route `PUT /requests/:id/cancel` (`src/routes/patients.js`, lines 148-182): one
`findOneAndUpdate({_id, patient: userId, status: {$in: ['active','matched']}})`.
A null result — whether the id is absent, the patient does not own the
request, or the status is terminal — produces the same 404 response
`'Request not found or cannot be cancelled'`. -/
def cancelRequest (db : Option BloodRequest) (userId : String)
    (reason : Option String) (now : Int) : CancelOutcome :=
  match db with
  | none =>
    { db := none, httpStatus := 404,
      message := "Request not found or cannot be cancelled" }
  | some r =>
    if r.patient = userId ∧
        (r.status = ReqStatus.active ∨ r.status = ReqStatus.matched) then
      { db := some (cancelledReq r reason now), httpStatus := 200,
        message := "Request cancelled successfully" }
    else
      { db := some r, httpStatus := 404,
        message := "Request not found or cannot be cancelled" }

/-- Urgency enum of the BloodRequest schema / create-route validator. -/
def validUrgencies : List String := ["low", "medium", "high", "critical"]

/-- Route `POST /request` (`src/routes/patients.js`, lines 9-60): express-validator
checks (blood type and urgency in their enums, 2-element hospital
coordinates, optional `requiredUnits ≥ 1`), then a new BloodRequest whose
schema defaults give `status: 'active'` and `matchedDonors: []`. -/
def createRequest (patientId bloodType urgency hospitalName : String)
    (coordinates : List Int) (requiredUnits : Option Nat) :
    Except ErrKind BloodRequest :=
  if canonicalBloodTypes.contains bloodType
      ∧ validUrgencies.contains urgency
      ∧ coordinates.length = 2
      ∧ (∀ n, requiredUnits = some n → 1 ≤ n) then
    .ok { patient := patientId, bloodType := bloodType, urgency := urgency,
          hospitalName := hospitalName, hospitalCoordinates := coordinates,
          requiredUnits := requiredUnits.getD 1,
          status := ReqStatus.active, matchedDonors := [],
          completedAt := none, cancelledAt := none, cancellationReason := none }
  else
    .error .validationError

/-- Rounding `Math.round(distance / 1000 * 10) / 10` of the donors route, expressed in
tenths of a kilometre over integer metres: `Math.round(m/100)` with JS
half-up rounding is `⌊(m + 50) / 100⌋`. -/
def roundKmTenths (meters : Nat) : Nat := (meters + 50) / 100

/-- A donor record after `.select('-password -medicalHistory')`: every User
field except the two excluded ones. -/
structure DonorPublic where
  id : String
  name : String
  userType : UserType
  bloodType : String
  isVerified : Bool
  isAvailable : Bool
  lastDonationDate : Option Int
deriving DecidableEq, Repr

/-- The projection applied by `.select('-password -medicalHistory')`. -/
def User.toPublic (u : User) : DonorPublic :=
  { id := u.id, name := u.name, userType := u.userType,
    bloodType := u.bloodType, isVerified := u.isVerified,
    isAvailable := u.isAvailable, lastDonationDate := u.lastDonationDate }

/-- One element of the `GET /available` response: the projected donor spread
together with its rounded distance (tenths of km). -/
structure DonorResult where
  donor : DonorPublic
  distance : Nat
deriving DecidableEq, Repr

/-- Ascending-by-distance order used by `.sort((a, b) => a.distance - b.distance)`. -/
def distLE (a b : DonorResult) : Prop := a.distance ≤ b.distance

instance : DecidableRel distLE := fun a b => Nat.decLe a.distance b.distance

instance : IsTotal DonorResult distLE :=
  ⟨fun a b => Nat.le_total a.distance b.distance⟩

instance : IsTrans DonorResult distLE :=
  ⟨fun _ _ _ => Nat.le_trans⟩

/-- The Mongo query filter of `GET /available` (`src/routes/donors.js`,
lines 20-34): `userType: 'donor'`, `isAvailable: true`, `isVerified: true`,
blood type in the compatible set when a type filter is given (`$exists`
otherwise), and `$near` with `$maxDistance: radius * 1000` metres. `distM`
is the store's spherical distance from the query origin in metres. -/
def donorQueryFilter (bloodTypeFilter : Option String) (radiusKm : Nat)
    (distM : User → Nat) (d : User) : Bool :=
  (d.userType == UserType.donor) && d.isAvailable && d.isVerified &&
    (match bloodTypeFilter with
     | some bt => (getCompatibleBloodTypes bt).contains d.bloodType
     | none => true) &&
    decide (distM d ≤ radiusKm * 1000)

/-- Route `GET /available` (`src/routes/donors.js`, lines 11-56): the store query,
the `.filter(donor => donor.isEligibleToDonate())` re-check, the map to
`{...donor.toObject(), distance}` with the rounded distance, and the final
ascending sort by distance. -/
def findDonors (bloodTypeFilter : Option String) (radiusKm : Nat) (now : Int)
    (donors : List User) (distM : User → Nat) : List DonorResult :=
  let queried := donors.filter (donorQueryFilter bloodTypeFilter radiusKm distM)
  let eligible := queried.filter (fun d => isEligibleToDonate d now)
  let results := eligible.map fun d =>
    { donor := User.toPublic d, distance := roundKmTenths (distM d) }
  List.insertionSort distLE results

/-- Spec-side candidate predicate, stated from the spec's words (§4.4): blood
type in `CompatibleDonorTypes(recipientBloodType)` (or all donors when the
type filter is omitted), `IsEligible` at evaluation time, and distance from
the origin at most `radiusKm`. Used to compare `findDonors` against the
specified candidate set. -/
def specQualifies (bloodTypeFilter : Option String) (radiusKm : Nat)
    (now : Int) (distM : User → Nat) (d : User) : Bool :=
  (match bloodTypeFilter with
   | some bt => (getCompatibleBloodTypes bt).contains d.bloodType
   | none => true) &&
  isEligibleToDonate d now && decide (distM d ≤ radiusKm * 1000)

/-- The "matched requires an accepted donor" invariant of §3: a request in
`matched` status has at least one matched-donor entry with response status
`accepted`. -/
def matchedInv (r : BloodRequest) : Prop :=
  r.status = ReqStatus.matched →
    ∃ e ∈ r.matchedDonors, e.status = RespStatus.accepted

instance (r : BloodRequest) : Decidable (matchedInv r) := by
  unfold matchedInv; infer_instance

/-! ### Helper lemmas about the find-or-push on `matchedDonors` -/

/-- After a response, some entry carries the responding donor's id with the
just-written status, responded-at time and notes. -/
theorem updateMatchedDonors_exists_entry (donorId : String) (st : RespStatus)
    (now : Int) (notes : Option String) (l : List MatchedDonor) :
    ∃ e ∈ updateMatchedDonors donorId st now notes l,
      e.donor = donorId ∧ e.status = st ∧ e.respondedAt = some now ∧
      e.notes = notes := by
  induction l with
  | nil =>
    refine ⟨_, List.mem_singleton_self _, rfl, rfl, rfl, rfl⟩
  | cons e es ih =>
    by_cases h : e.donor = donorId
    · refine ⟨{ donor := e.donor, status := st, matchedAt := e.matchedAt,
                respondedAt := some now, notes := notes }, ?_, h, rfl, rfl, rfl⟩
      simp [updateMatchedDonors, h]
    · obtain ⟨f, hf, hprops⟩ := ih
      exact ⟨f, by simp [updateMatchedDonors, h, hf], hprops⟩

/-- Entries of other donors survive a response untouched. -/
theorem updateMatchedDonors_mem_of_ne (donorId : String) (st : RespStatus)
    (now : Int) (notes : Option String) (l : List MatchedDonor)
    (e : MatchedDonor) (he : e ∈ l) (hne : e.donor ≠ donorId) :
    e ∈ updateMatchedDonors donorId st now notes l := by
  induction l with
  | nil => cases he
  | cons f fs ih =>
    rcases List.mem_cons.mp he with heq | hmem
    · subst heq
      simp [updateMatchedDonors, hne]
    · by_cases h : f.donor = donorId
      · simp only [updateMatchedDonors, if_pos h]
        exact List.mem_cons_of_mem _ hmem
      · simp only [updateMatchedDonors, if_neg h]
        exact List.mem_cons_of_mem _ (ih hmem)

/-- When the donor already has an entry, the response rewrites it in place:
the list of donor ids is unchanged. -/
theorem updateMatchedDonors_map_donor_of_mem (donorId : String)
    (st : RespStatus) (now : Int) (notes : Option String)
    (l : List MatchedDonor)
    (h : donorId ∈ l.map MatchedDonor.donor) :
    (updateMatchedDonors donorId st now notes l).map MatchedDonor.donor =
      l.map MatchedDonor.donor := by
  induction l with
  | nil => cases h
  | cons e es ih =>
    by_cases he : e.donor = donorId
    · simp [updateMatchedDonors, he]
    · have h' : donorId ∈ es.map MatchedDonor.donor := by
        rcases List.mem_map.mp h with ⟨f, hf, hfd⟩
        rcases List.mem_cons.mp hf with rfl | hmem
        · exact absurd hfd he
        · exact List.mem_map.mpr ⟨f, hmem, hfd⟩
      simp [updateMatchedDonors, he, ih h']

/-- When the donor has no entry yet, the response appends a fresh one:
the list of donor ids is extended by exactly this donor. -/
theorem updateMatchedDonors_map_donor_of_not_mem (donorId : String)
    (st : RespStatus) (now : Int) (notes : Option String)
    (l : List MatchedDonor)
    (h : donorId ∉ l.map MatchedDonor.donor) :
    (updateMatchedDonors donorId st now notes l).map MatchedDonor.donor =
      l.map MatchedDonor.donor ++ [donorId] := by
  induction l with
  | nil => simp [updateMatchedDonors]
  | cons e es ih =>
    have he : e.donor ≠ donorId := by
      intro hcontra
      exact h (by simp [hcontra])
    have h' : donorId ∉ es.map MatchedDonor.donor := by
      intro hcontra
      exact h (by simp [hcontra])
    simp [updateMatchedDonors, he, ih h']

/-- The responding donor always appears among the donor ids afterwards. -/
theorem updateMatchedDonors_donor_mem (donorId : String) (st : RespStatus)
    (now : Int) (notes : Option String) (l : List MatchedDonor) :
    donorId ∈ (updateMatchedDonors donorId st now notes l).map
      MatchedDonor.donor := by
  obtain ⟨e, he, hd, _⟩ := updateMatchedDonors_exists_entry donorId st now notes l
  exact List.mem_map.mpr ⟨e, he, hd⟩

/-- A response never shrinks the list, and grows it only when the donor was
new: updated-in-place keeps the length. -/
theorem updateMatchedDonors_length_of_mem (donorId : String) (st : RespStatus)
    (now : Int) (notes : Option String) (l : List MatchedDonor)
    (h : donorId ∈ l.map MatchedDonor.donor) :
    (updateMatchedDonors donorId st now notes l).length = l.length := by
  have := congrArg List.length
    (updateMatchedDonors_map_donor_of_mem donorId st now notes l h)
  simpa using this

/-- Distinct-donor uniqueness (`Nodup` of the donor-id list) is preserved by
a response. -/
theorem updateMatchedDonors_nodup (donorId : String) (st : RespStatus)
    (now : Int) (notes : Option String) (l : List MatchedDonor)
    (h : (l.map MatchedDonor.donor).Nodup) :
    ((updateMatchedDonors donorId st now notes l).map MatchedDonor.donor).Nodup := by
  by_cases hmem : donorId ∈ l.map MatchedDonor.donor
  · rw [updateMatchedDonors_map_donor_of_mem donorId st now notes l hmem]
    exact h
  · rw [updateMatchedDonors_map_donor_of_not_mem donorId st now notes l hmem]
    refine List.Nodup.append h (List.nodup_singleton _) ?_
    intro x hx hx'
    rcases List.mem_singleton.mp hx' with rfl
    exact hmem hx

/-- Characterization of `isEligibleToDonate`: true exactly when the role is
donor, availability and verification hold, and any recorded last donation
lies at least 56 days (in milliseconds) in the past. -/
theorem isEligible_iff (u : User) (now : Int) :
    isEligibleToDonate u now = true ↔
      u.userType = UserType.donor ∧ u.isAvailable = true ∧ u.isVerified = true ∧
        ∀ t, u.lastDonationDate = some t → 56 * (1000 * 60 * 60 * 24) ≤ now - t := by
  by_cases h1 : u.userType = UserType.donor <;>
  by_cases h2 : u.isAvailable = true <;>
  by_cases h3 : u.isVerified = true <;>
  cases h : u.lastDonationDate <;>
  simp_all [isEligibleToDonate]

/-! ### Claim theorems -/

/-- C8. For every recipient blood type among the eight canonical ABO/Rh
types, `getCompatibleBloodTypes` — both the donor-search copy and the
BloodRequest-method copy — returns exactly the §4.1 table row; O- appears in
every row; AB+ yields all eight types; any unknown input yields the empty
list rather than an error. -/
theorem compatibleBloodTypes_match_table :
    (getCompatibleBloodTypes "A+" = ["A+", "A-", "O+", "O-"] ∧
     getCompatibleBloodTypes "A-" = ["A-", "O-"] ∧
     getCompatibleBloodTypes "B+" = ["B+", "B-", "O+", "O-"] ∧
     getCompatibleBloodTypes "B-" = ["B-", "O-"] ∧
     getCompatibleBloodTypes "AB+" = ["A+", "A-", "B+", "B-", "AB+", "AB-", "O+", "O-"] ∧
     getCompatibleBloodTypes "AB-" = ["A-", "B-", "AB-", "O-"] ∧
     getCompatibleBloodTypes "O+" = ["O+", "O-"] ∧
     getCompatibleBloodTypes "O-" = ["O-"]) ∧
    (∀ r : BloodRequest,
      r.getCompatibleBloodTypesMethod = getCompatibleBloodTypes r.bloodType) ∧
    (∀ bt, bt ∈ canonicalBloodTypes → "O-" ∈ getCompatibleBloodTypes bt) ∧
    getCompatibleBloodTypes "AB+" = canonicalBloodTypes ∧
    (∀ s, s ∉ canonicalBloodTypes → getCompatibleBloodTypes s = []) := by
  refine ⟨by decide, fun r => rfl, by decide, by decide, ?_⟩
  intro s hs
  simp only [canonicalBloodTypes, List.mem_cons, List.mem_singleton,
    not_or] at hs
  unfold getCompatibleBloodTypes
  split <;> simp_all

/-- Witness for C8: concrete instances of the hypothesis-bearing conjuncts —
O- is a compatible donor for an A+ recipient, and the unknown type "X"
yields the empty list. -/
theorem compatibleBloodTypes_match_table_witness :
    "O-" ∈ getCompatibleBloodTypes "A+" ∧ getCompatibleBloodTypes "X" = [] :=
  ⟨compatibleBloodTypes_match_table.2.2.1 "A+" (by decide),
   compatibleBloodTypes_match_table.2.2.2.2 "X" (by decide)⟩

/-- C9. `isEligibleToDonate` returns true iff the role is donor,
`isAvailable` and `isVerified` hold, and either no prior donation is
recorded or at least 56 days have elapsed; in particular it is false for a
last donation 30 days ago, false whenever `isVerified` is false, and true
for 60 days ago or no recorded donation. -/
theorem isEligibleToDonate_rules : ∀ (u : User) (now : Int),
    (isEligibleToDonate u now = true ↔
      (u.userType = UserType.donor ∧ u.isAvailable = true ∧
        u.isVerified = true ∧
        ∀ t, u.lastDonationDate = some t →
          56 * (1000 * 60 * 60 * 24) ≤ now - t)) ∧
    (u.lastDonationDate = some (now - 30 * (1000 * 60 * 60 * 24)) →
      isEligibleToDonate u now = false) ∧
    (u.isVerified = false → isEligibleToDonate u now = false) ∧
    (u.userType = UserType.donor → u.isAvailable = true →
      u.isVerified = true →
      u.lastDonationDate = some (now - 60 * (1000 * 60 * 60 * 24)) →
      isEligibleToDonate u now = true) ∧
    (u.userType = UserType.donor → u.isAvailable = true →
      u.isVerified = true → u.lastDonationDate = none →
      isEligibleToDonate u now = true) := by
  intro u now
  have hiff := isEligible_iff u now
  refine ⟨hiff, ?_, ?_, ?_, ?_⟩
  · intro h30
    cases hEl : isEligibleToDonate u now
    · rfl
    · exfalso
      have hd := (hiff.mp hEl).2.2.2 _ h30
      omega
  · intro hvf
    cases hEl : isEligibleToDonate u now
    · rfl
    · exfalso
      have := (hiff.mp hEl).2.2.1
      rw [hvf] at this
      exact Bool.false_ne_true this
  · intro h1 h2 h3 h60
    apply hiff.mpr
    refine ⟨h1, h2, h3, ?_⟩
    intro t ht
    rw [h60] at ht
    have := Option.some.inj ht
    omega
  · intro h1 h2 h3 hnone
    apply hiff.mpr
    refine ⟨h1, h2, h3, ?_⟩
    intro t ht
    rw [hnone] at ht
    cases ht

/-- A verified, available donor with no recorded last donation, used as a
concrete fixture. -/
def donorOk : User :=
  { id := "d1", name := "Dana", userType := UserType.donor, bloodType := "O-",
    isVerified := true, isAvailable := true, lastDonationDate := none,
    password := "secret", medicalHistory := ["none"] }

/-- Witness for C9: the four hypothesis-bearing conjuncts at a concrete
donor and `now = 10^13` ms. -/
theorem isEligibleToDonate_rules_witness :
    isEligibleToDonate { donorOk with
      lastDonationDate := some (10000000000000 - 30 * (1000 * 60 * 60 * 24)) }
      10000000000000 = false ∧
    isEligibleToDonate { donorOk with isVerified := false }
      10000000000000 = false ∧
    isEligibleToDonate { donorOk with
      lastDonationDate := some (10000000000000 - 60 * (1000 * 60 * 60 * 24)) }
      10000000000000 = true ∧
    isEligibleToDonate donorOk 10000000000000 = true :=
  ⟨(isEligibleToDonate_rules _ 10000000000000).2.1 rfl,
   (isEligibleToDonate_rules _ 10000000000000).2.2.1 rfl,
   (isEligibleToDonate_rules _ 10000000000000).2.2.2.1 rfl rfl rfl rfl,
   (isEligibleToDonate_rules donorOk 10000000000000).2.2.2.2 rfl rfl rfl rfl⟩

/-- Function `applyResponse` writes exactly the find-or-push result into
`matchedDonors`. -/
theorem applyResponse_matchedDonors (r : BloodRequest) (d : String)
    (st : RespStatus) (notes : Option String) (now : Int) :
    (applyResponse r d st notes now).matchedDonors =
      updateMatchedDonors d st now notes r.matchedDonors := rfl

/-- Function `applyResponse` advances the status to `matched` exactly on an accepted
response to an `active` request. -/
theorem applyResponse_status (r : BloodRequest) (d : String)
    (st : RespStatus) (notes : Option String) (now : Int) :
    (applyResponse r d st notes now).status =
      if st = RespStatus.accepted ∧ r.status = ReqStatus.active then
        ReqStatus.matched
      else r.status := rfl

/-- C4. `RecordDonorResponse` fails with NotFound when the request is
absent; with InvalidState when the status is neither active nor matched (in
particular on a cancelled request); an accepted response to an active
request advances it to matched; a declined response, or any response to an
already-matched request, leaves the status unchanged. -/
theorem recordDonorResponse_transitions :
    ∀ (db : Option BloodRequest) (d : String) (st : RespStatus)
      (notes : Option String) (now : Int),
    (db = none → recordDonorResponse db d st notes now = .error .notFound) ∧
    (∀ r, db = some r →
      ((r.status ≠ ReqStatus.active ∧ r.status ≠ ReqStatus.matched) →
        recordDonorResponse db d st notes now = .error .invalidState) ∧
      (r.status = ReqStatus.cancelled →
        recordDonorResponse db d st notes now = .error .invalidState) ∧
      (st = RespStatus.accepted → r.status = ReqStatus.active →
        ∃ r', recordDonorResponse db d st notes now = .ok r' ∧
          r'.status = ReqStatus.matched) ∧
      ((st = RespStatus.declined ∨ r.status = ReqStatus.matched) →
        (r.status = ReqStatus.active ∨ r.status = ReqStatus.matched) →
        ∃ r', recordDonorResponse db d st notes now = .ok r' ∧
          r'.status = r.status)) := by
  intro db d st notes now
  refine ⟨fun h => by subst h; rfl, ?_⟩
  intro r hdb
  subst hdb
  have hmain : ∀ _ : ¬(r.status ≠ ReqStatus.active ∧ r.status ≠ ReqStatus.matched),
      recordDonorResponse (some r) d st notes now =
        .ok (applyResponse r d st notes now) := by
    intro hok
    simp only [recordDonorResponse, respondToRequest, if_neg hok]
  refine ⟨?_, ?_, ?_, ?_⟩
  · intro hbad
    simp only [recordDonorResponse, respondToRequest, if_pos hbad]
  · intro hc
    have hbad : r.status ≠ ReqStatus.active ∧ r.status ≠ ReqStatus.matched := by
      rw [hc]; exact ⟨by simp, by simp⟩
    simp only [recordDonorResponse, respondToRequest, if_pos hbad]
  · intro hacc hact
    have hok : ¬(r.status ≠ ReqStatus.active ∧ r.status ≠ ReqStatus.matched) := by
      rw [hact]; simp
    refine ⟨_, hmain hok, ?_⟩
    rw [applyResponse_status, if_pos (And.intro hacc hact)]
  · intro hother hgood
    have hok : ¬(r.status ≠ ReqStatus.active ∧ r.status ≠ ReqStatus.matched) := by
      rcases hgood with h | h <;> rw [h] <;> simp
    refine ⟨_, hmain hok, ?_⟩
    have hne : ¬(st = RespStatus.accepted ∧ r.status = ReqStatus.active) := by
      rintro ⟨ha, hb⟩
      rcases hother with h | h
      · rw [h] at ha; cases ha
      · rw [h] at hb; cases hb
    rw [applyResponse_status, if_neg hne]

/-- A fresh active request with no responses, used as a concrete fixture. -/
def reqActive : BloodRequest :=
  { patient := "p1", bloodType := "O-", urgency := "critical",
    hospitalName := "City Hospital", hospitalCoordinates := [77, 12],
    requiredUnits := 1, status := ReqStatus.active, matchedDonors := [],
    completedAt := none, cancelledAt := none, cancellationReason := none }

/-- A cancelled request, used as a concrete fixture. -/
def reqCancelled : BloodRequest := { reqActive with status := ReqStatus.cancelled }

/-- Witness for C4: the four hypothesis-bearing conjuncts at concrete
requests — absent request, cancelled request, accepted-on-active,
declined-on-active. -/
theorem recordDonorResponse_transitions_witness :
    recordDonorResponse none "d1" RespStatus.accepted none 0 =
      .error .notFound ∧
    recordDonorResponse (some reqCancelled) "d1" RespStatus.accepted none 0 =
      .error .invalidState ∧
    (∃ r', recordDonorResponse (some reqActive) "d1" RespStatus.accepted none 0 =
      .ok r' ∧ r'.status = ReqStatus.matched) ∧
    (∃ r', recordDonorResponse (some reqActive) "d1" RespStatus.declined none 0 =
      .ok r' ∧ r'.status = reqActive.status) :=
  ⟨(recordDonorResponse_transitions none "d1" RespStatus.accepted none 0).1 rfl,
   ((recordDonorResponse_transitions (some reqCancelled) "d1"
      RespStatus.accepted none 0).2 reqCancelled rfl).2.1 rfl,
   ((recordDonorResponse_transitions (some reqActive) "d1"
      RespStatus.accepted none 0).2 reqActive rfl).2.2.1 rfl rfl,
   ((recordDonorResponse_transitions (some reqActive) "d1"
      RespStatus.declined none 0).2 reqActive rfl).2.2.2
      (Or.inl rfl) (Or.inl rfl)⟩

/-- C5. On an active or matched request, responding twice with the same
donor and status succeeds both times, the second call leaves the
matched-donor list at the same length (the entry is updated in place:
status, respondedAt, notes), and at-most-one-entry-per-donor (Nodup of the
donor-id list) is preserved. -/
theorem respond_idempotent :
    ∀ (r : BloodRequest) (d : String) (st : RespStatus)
      (notes notes2 : Option String) (now now2 : Int),
    (r.status = ReqStatus.active ∨ r.status = ReqStatus.matched) →
    ∃ r1 r2,
      respondToRequest r d st notes now = .ok r1 ∧
      respondToRequest r1 d st notes2 now2 = .ok r2 ∧
      r2.matchedDonors.length = r1.matchedDonors.length ∧
      (∃ e ∈ r2.matchedDonors, e.donor = d ∧ e.status = st ∧
        e.respondedAt = some now2 ∧ e.notes = notes2) ∧
      ((r.matchedDonors.map MatchedDonor.donor).Nodup →
        (r2.matchedDonors.map MatchedDonor.donor).Nodup) := by
  intro r d st notes notes2 now now2 hst
  have hok : ¬(r.status ≠ ReqStatus.active ∧ r.status ≠ ReqStatus.matched) := by
    rcases hst with h | h <;> rw [h] <;> simp
  refine ⟨applyResponse r d st notes now,
    applyResponse (applyResponse r d st notes now) d st notes2 now2,
    by simp only [respondToRequest, if_neg hok], ?_, ?_, ?_, ?_⟩
  · have hst1 : (applyResponse r d st notes now).status = ReqStatus.active ∨
        (applyResponse r d st notes now).status = ReqStatus.matched := by
      rw [applyResponse_status]
      split
      · right; rfl
      · exact hst
    have hok1 : ¬((applyResponse r d st notes now).status ≠ ReqStatus.active ∧
        (applyResponse r d st notes now).status ≠ ReqStatus.matched) := by
      rcases hst1 with h | h <;> rw [h] <;> simp
    simp only [respondToRequest, if_neg hok1]
  · rw [applyResponse_matchedDonors, applyResponse_matchedDonors]
    exact updateMatchedDonors_length_of_mem d st now2 notes2 _
      (updateMatchedDonors_donor_mem d st now notes r.matchedDonors)
  · rw [applyResponse_matchedDonors]
    exact updateMatchedDonors_exists_entry d st now2 notes2 _
  · intro hnd
    rw [applyResponse_matchedDonors, applyResponse_matchedDonors]
    exact updateMatchedDonors_nodup _ _ _ _ _
      (updateMatchedDonors_nodup _ _ _ _ _ hnd)

/-- Witness for C5: the double-response at a concrete active request. -/
theorem respond_idempotent_witness :
    ∃ r1 r2,
      respondToRequest reqActive "d1" RespStatus.accepted none 0 = .ok r1 ∧
      respondToRequest r1 "d1" RespStatus.accepted (some "note") 5 = .ok r2 ∧
      r2.matchedDonors.length = r1.matchedDonors.length ∧
      (∃ e ∈ r2.matchedDonors, e.donor = "d1" ∧
        e.status = RespStatus.accepted ∧
        e.respondedAt = some 5 ∧ e.notes = some "note") ∧
      ((reqActive.matchedDonors.map MatchedDonor.donor).Nodup →
        (r2.matchedDonors.map MatchedDonor.donor).Nodup) :=
  respond_idempotent reqActive "d1" RespStatus.accepted none (some "note")
    0 5 (Or.inl rfl)

/-- A matched-donor entry for donor d1 who accepted at time 0. -/
def acceptedEntry : MatchedDonor :=
  { donor := "d1", status := RespStatus.accepted, matchedAt := 0,
    respondedAt := some 0, notes := none }

/-- The same entry after d1 declined at time 1. -/
def declinedEntry : MatchedDonor :=
  { donor := "d1", status := RespStatus.declined, matchedAt := 0,
    respondedAt := some 1, notes := none }

/-- A matched request whose only accepted donor is d1. -/
def reqMatchedSolo : BloodRequest :=
  { reqActive with status := ReqStatus.matched, matchedDonors := [acceptedEntry] }

/-- The state of `reqMatchedSolo` after its sole accepted donor declined:
still `matched`, but with no accepted entry. -/
def reqMatchedSoloDeclined : BloodRequest :=
  { reqActive with status := ReqStatus.matched, matchedDonors := [declinedEntry] }

/-- C1 counterexample. The "matched requires an accepted donor" invariant is
NOT preserved by `RecordDonorResponse`: on a matched request whose sole
accepted donor is d1 (where the invariant holds), d1's declined response
succeeds, leaves the status `matched`, and leaves no accepted entry — the
invariant is false afterwards. -/
theorem matchedInv_broken_by_decline :
    matchedInv reqMatchedSolo ∧
    reqMatchedSolo.status = ReqStatus.matched ∧
    respondToRequest reqMatchedSolo "d1" RespStatus.declined none 1 =
      .ok reqMatchedSoloDeclined ∧
    reqMatchedSoloDeclined.status = ReqStatus.matched ∧
    ¬ matchedInv reqMatchedSoloDeclined := by decide

/-- C1 (amended). The "matched requires an accepted donor" invariant is
established by `CreateRequest` and preserved by accepted responses, by
`CompleteRequest`, by `CancelRequest`, and by declined responses provided
that — when the request is matched — some other donor's entry is still
accepted; the sole-accepted-donor decline of `matchedInv_broken_by_decline`
is exactly the unprotected case. -/
theorem matchedInv_preservation :
    (∀ pid bt urg hn coords ru r,
      createRequest pid bt urg hn coords ru = .ok r → matchedInv r) ∧
    (∀ r d notes now r',
      respondToRequest r d RespStatus.accepted notes now = .ok r' →
      matchedInv r') ∧
    (∀ r d notes now r',
      respondToRequest r d RespStatus.declined notes now = .ok r' →
      (r.status = ReqStatus.matched →
        ∃ e ∈ r.matchedDonors, e.donor ≠ d ∧ e.status = RespStatus.accepted) →
      matchedInv r') ∧
    (∀ db uid now r' us,
      completeRequest db uid now = .ok (r', us) → matchedInv r') ∧
    (∀ r uid reason now r', matchedInv r →
      (cancelRequest (some r) uid reason now).db = some r' → matchedInv r') := by
  refine ⟨?_, ?_, ?_, ?_, ?_⟩
  · intro pid bt urg hn coords ru r h
    unfold createRequest at h
    split at h
    · have := Except.ok.inj h
      subst this
      intro hm
      simp at hm
    · exact Except.noConfusion h
  · intro r d notes now r' h
    unfold respondToRequest at h
    split at h
    · exact Except.noConfusion h
    · have := Except.ok.inj h
      subst this
      intro _
      rw [applyResponse_matchedDonors]
      obtain ⟨e, he, _, hs, _⟩ := updateMatchedDonors_exists_entry d
        RespStatus.accepted now notes r.matchedDonors
      exact ⟨e, he, hs⟩
  · intro r d notes now r' h hother
    unfold respondToRequest at h
    split at h
    · exact Except.noConfusion h
    · have := Except.ok.inj h
      subst this
      intro hm
      rw [applyResponse_status] at hm
      rw [if_neg (by rintro ⟨ha, _⟩; cases ha)] at hm
      obtain ⟨e, he, hed, hes⟩ := hother hm
      refine ⟨e, ?_, hes⟩
      rw [applyResponse_matchedDonors]
      exact updateMatchedDonors_mem_of_ne d RespStatus.declined now notes
        r.matchedDonors e he hed
  · intro db uid now r' us h
    cases db with
    | none => exact Except.noConfusion h
    | some r =>
      simp only [completeRequest] at h
      split at h
      · exact Except.noConfusion h
      · split at h
        · exact Except.noConfusion h
        · split at h
          · have := congrArg Prod.fst (Except.ok.inj h)
            simp only at this
            subst this
            intro hm
            simp [completedReq] at hm
          · have := congrArg Prod.fst (Except.ok.inj h)
            simp only at this
            subst this
            intro hm
            simp [completedReq] at hm
  · intro r uid reason now r' hinv h
    simp only [cancelRequest] at h
    split at h
    · simp only [Option.some.injEq] at h
      subst h
      intro hm
      simp [cancelledReq] at hm
    · simp only [Option.some.injEq] at h
      subst h
      exact hinv

/-- A matched request with two responders: d1 accepted and d2 accepted. -/
def acceptedEntryD2 : MatchedDonor :=
  { donor := "d2", status := RespStatus.accepted, matchedAt := 0,
    respondedAt := some 0, notes := none }

/-- d2's entry after declining at time 1. -/
def declinedEntryD2 : MatchedDonor :=
  { donor := "d2", status := RespStatus.declined, matchedAt := 0,
    respondedAt := some 1, notes := none }

/-- A matched request where both d1 and d2 accepted. -/
def reqMatchedTwo : BloodRequest :=
  { reqActive with status := ReqStatus.matched, matchedDonors := [acceptedEntry, acceptedEntryD2] }

/-- Request `reqMatchedTwo` after d2 declined: d1's accepted entry remains. -/
def reqTwoAfterDecline : BloodRequest :=
  { reqActive with status := ReqStatus.matched, matchedDonors := [acceptedEntry, declinedEntryD2] }

/-- Witness for C1 (amended): each preservation conjunct applied at concrete
requests — creation, an accepted response, a declined response with another
accepted donor remaining, completion, and cancellation. -/
theorem matchedInv_preservation_witness :
    matchedInv reqActive ∧
    matchedInv reqMatchedSolo ∧
    matchedInv reqTwoAfterDecline ∧
    matchedInv (completedReq reqMatchedSolo 5) ∧
    matchedInv (cancelledReq reqActive none 7) :=
  ⟨matchedInv_preservation.1 "p1" "O-" "critical" "City Hospital" [77, 12]
      none reqActive (by decide),
   matchedInv_preservation.2.1 reqActive "d1" none 0 reqMatchedSolo (by decide),
   matchedInv_preservation.2.2.1 reqMatchedTwo "d2" none 1 reqTwoAfterDecline
      (by decide) (by decide),
   matchedInv_preservation.2.2.2.1 (some reqMatchedSolo) "p1" 5
      (completedReq reqMatchedSolo 5)
      [{ userId := "d1", lastDonationDate := 5, isAvailable := false }]
      (by decide),
   matchedInv_preservation.2.2.2.2 reqActive "p1" none 7
      (cancelledReq reqActive none 7) (by decide) (by decide)⟩

/-- C2 counterexample. A matched request can carry no accepted entry (after
the sole accepted donor declined); the owning patient's `CompleteRequest`
then still succeeds — but the list of user-record updates is empty: NO donor
is marked as the completing donor, contradicting "exactly one". -/
theorem completeRequest_marks_none_when_no_accepted :
    reqMatchedSoloDeclined.status = ReqStatus.matched ∧
    (∀ m ∈ reqMatchedSoloDeclined.matchedDonors,
      m.status ≠ RespStatus.accepted) ∧
    completeRequest (some reqMatchedSoloDeclined) "p1" 5 =
      .ok (completedReq reqMatchedSoloDeclined 5, []) := by decide

/-- C2 (amended). `CompleteRequest` fails with NotFound when absent, with
Forbidden when the caller is neither the owning patient nor an accepted
donor, and with InvalidState when an authorized caller hits a non-matched
status (in particular `active`); on success it sets status `completed` and
`completedAt`, and — WHEN an accepted entry exists — resets exactly the
first accepted donor's `lastDonationDate` to now and `isAvailable` to
false; with no accepted entry (possible after a decline) no user record is
updated. -/
theorem completeRequest_spec :
    ∀ (db : Option BloodRequest) (uid : String) (now : Int),
    (db = none → completeRequest db uid now = .error .notFound) ∧
    (∀ r, db = some r →
      ((r.patient ≠ uid ∧
        ¬∃ m ∈ r.matchedDonors, m.donor = uid ∧ m.status = RespStatus.accepted) →
        completeRequest db uid now = .error .forbidden) ∧
      ((r.patient = uid ∨
        ∃ m ∈ r.matchedDonors, m.donor = uid ∧ m.status = RespStatus.accepted) →
        r.status ≠ ReqStatus.matched →
        completeRequest db uid now = .error .invalidState) ∧
      ((r.patient = uid ∨
        ∃ m ∈ r.matchedDonors, m.donor = uid ∧ m.status = RespStatus.accepted) →
        r.status = ReqStatus.matched →
        ∃ us, completeRequest db uid now = .ok (completedReq r now, us) ∧
          (completedReq r now).status = ReqStatus.completed ∧
          (completedReq r now).completedAt = some now ∧
          (∀ m, r.matchedDonors.find?
              (fun m => m.status = RespStatus.accepted) = some m →
            us = [{ userId := m.donor, lastDonationDate := now,
                    isAvailable := false }]) ∧
          (r.matchedDonors.find?
              (fun m => m.status = RespStatus.accepted) = none → us = []))) := by
  intro db uid now
  refine ⟨fun h => by subst h; rfl, ?_⟩
  intro r hdb
  subst hdb
  have hauth' : (r.patient = uid ∨
      ∃ m ∈ r.matchedDonors, m.donor = uid ∧ m.status = RespStatus.accepted) →
      ¬(¬(r.patient = uid) ∧
        ¬∃ m ∈ r.matchedDonors, m.donor = uid ∧ m.status = RespStatus.accepted) := by
    rintro hauth ⟨hnp, hne⟩
    rcases hauth with hp | hex
    · exact hnp hp
    · exact hne hex
  refine ⟨?_, ?_, ?_⟩
  · intro hforb
    simp only [completeRequest]
    rw [if_pos hforb]
  · intro hauth hst
    simp only [completeRequest]
    rw [if_neg (hauth' hauth), if_pos hst]
  · intro hauth hst
    simp only [completeRequest]
    rw [if_neg (hauth' hauth), if_neg (by rw [hst]; simp)]
    cases hf : r.matchedDonors.find? (fun m => m.status = RespStatus.accepted) with
    | some m =>
      refine ⟨[{ userId := m.donor, lastDonationDate := now, isAvailable := false }],
        rfl, rfl, rfl, ?_, ?_⟩
      · intro m' hm'
        cases Option.some.inj hm'
        rfl
      · intro hnone
        exact Option.noConfusion hnone
    | none =>
      refine ⟨[], rfl, rfl, rfl, ?_, fun _ => rfl⟩
      intro m' hm'
      exact Option.noConfusion hm'

/-- Witness for C2 (amended): all four branches at concrete inputs — absent
request, a stranger on a matched request, the patient on a still-active
request, and the patient completing a matched request with one accepted
donor (exactly d1's user record is updated). -/
theorem completeRequest_spec_witness :
    completeRequest none "p1" 5 = .error .notFound ∧
    completeRequest (some reqMatchedSolo) "x" 5 = .error .forbidden ∧
    completeRequest (some reqActive) "p1" 5 = .error .invalidState ∧
    (∃ us, completeRequest (some reqMatchedSolo) "p1" 5 =
        .ok (completedReq reqMatchedSolo 5, us) ∧
      (completedReq reqMatchedSolo 5).status = ReqStatus.completed ∧
      (completedReq reqMatchedSolo 5).completedAt = some 5 ∧
      (∀ m, reqMatchedSolo.matchedDonors.find?
          (fun m => m.status = RespStatus.accepted) = some m →
        us = [{ userId := m.donor, lastDonationDate := 5,
                isAvailable := false }]) ∧
      (reqMatchedSolo.matchedDonors.find?
          (fun m => m.status = RespStatus.accepted) = none → us = [])) :=
  ⟨(completeRequest_spec none "p1" 5).1 rfl,
   ((completeRequest_spec (some reqMatchedSolo) "x" 5).2 reqMatchedSolo rfl).1
      (by decide),
   ((completeRequest_spec (some reqActive) "p1" 5).2 reqActive rfl).2.1
      (Or.inl rfl) (by decide),
   ((completeRequest_spec (some reqMatchedSolo) "p1" 5).2 reqMatchedSolo
      rfl).2.2 (Or.inl rfl) rfl⟩

/-- C10. On a matched request with no accepted matched-donor entry, the
owning patient's `CompleteRequest` still succeeds: status becomes
`completed` with `completedAt` set, and the list of user-record updates is
empty — no donor's `lastDonationDate` or `isAvailable` changes. -/
theorem completeRequest_no_accepted_frame :
    ∀ (r : BloodRequest) (uid : String) (now : Int),
    r.status = ReqStatus.matched →
    (∀ m ∈ r.matchedDonors, m.status ≠ RespStatus.accepted) →
    r.patient = uid →
    completeRequest (some r) uid now = .ok (completedReq r now, []) ∧
    (completedReq r now).status = ReqStatus.completed ∧
    (completedReq r now).completedAt = some now := by
  intro r uid now hst hnone hp
  refine ⟨?_, rfl, rfl⟩
  simp only [completeRequest]
  rw [if_neg (by rintro ⟨h1, _⟩; exact h1 hp)]
  rw [if_neg (by rw [hst]; simp)]
  have hf : r.matchedDonors.find?
      (fun m => m.status = RespStatus.accepted) = none := by
    apply List.find?_eq_none.mpr
    intro m hm
    simpa using hnone m hm
  rw [hf]

/-- Witness for C10: completing the matched-with-only-declined request. -/
theorem completeRequest_no_accepted_frame_witness :
    completeRequest (some reqMatchedSoloDeclined) "p1" 9 =
      .ok (completedReq reqMatchedSoloDeclined 9, []) ∧
    (completedReq reqMatchedSoloDeclined 9).status = ReqStatus.completed ∧
    (completedReq reqMatchedSoloDeclined 9).completedAt = some 9 :=
  completeRequest_no_accepted_frame reqMatchedSoloDeclined "p1" 9 rfl
    (by decide) rfl

/-- A completed request owned by patient p1, used as a concrete fixture. -/
def reqCompletedOwned : BloodRequest :=
  { reqActive with status := ReqStatus.completed }

/-- C7 counterexample. The cancel route does NOT surface a distinct
InvalidState error: cancelling a request the patient owns but whose status
is `completed` yields exactly the same 404 response (status code and
message) as cancelling a request that does not exist — the two failure
causes are indistinguishable to the caller. -/
theorem cancelRequest_errors_indistinguishable :
    reqCompletedOwned.patient = "p1" ∧
    reqCompletedOwned.status = ReqStatus.completed ∧
    (cancelRequest (some reqCompletedOwned) "p1" none 3).httpStatus = 404 ∧
    (cancelRequest (some reqCompletedOwned) "p1" none 3).httpStatus =
      (cancelRequest none "p1" none 3).httpStatus ∧
    (cancelRequest (some reqCompletedOwned) "p1" none 3).message =
      (cancelRequest none "p1" none 3).message := by decide

/-- C7 (amended). `CancelRequest` fails when the request is absent, not
owned by the acting patient, or not in {active, matched} — but all three
failures produce the SAME 404 response `'Request not found or cannot be
cancelled'` (a single `findOneAndUpdate` filter, no distinct InvalidState
error); on success it sets status `cancelled` and records the cancellation
timestamp and reason. -/
theorem cancelRequest_spec :
    ∀ (db : Option BloodRequest) (uid : String) (reason : Option String)
      (now : Int),
    (db = none → cancelRequest db uid reason now =
      { db := none, httpStatus := 404,
        message := "Request not found or cannot be cancelled" }) ∧
    (∀ r, db = some r →
      ((r.patient ≠ uid ∨
        (r.status ≠ ReqStatus.active ∧ r.status ≠ ReqStatus.matched)) →
        cancelRequest db uid reason now =
          { db := some r, httpStatus := 404,
            message := "Request not found or cannot be cancelled" }) ∧
      (r.patient = uid →
        (r.status = ReqStatus.active ∨ r.status = ReqStatus.matched) →
        cancelRequest db uid reason now =
          { db := some (cancelledReq r reason now), httpStatus := 200,
            message := "Request cancelled successfully" } ∧
        (cancelledReq r reason now).status = ReqStatus.cancelled ∧
        (cancelledReq r reason now).cancelledAt = some now ∧
        (cancelledReq r reason now).cancellationReason = reason)) := by
  intro db uid reason now
  refine ⟨fun h => by subst h; rfl, ?_⟩
  intro r hdb
  subst hdb
  constructor
  · intro hbad
    simp only [cancelRequest]
    rw [if_neg ?hn]
    case hn =>
      rintro ⟨hp, hs⟩
      rcases hbad with h | ⟨h1, h2⟩
      · exact h hp
      · rcases hs with h | h
        · exact h1 h
        · exact h2 h
  · intro hp hs
    refine ⟨?_, rfl, rfl, rfl⟩
    simp only [cancelRequest]
    rw [if_pos (And.intro hp hs)]

/-- Witness for C7 (amended): the absent, wrong-status, and success branches
at concrete requests. -/
theorem cancelRequest_spec_witness :
    cancelRequest none "p1" none 3 =
      { db := none, httpStatus := 404,
        message := "Request not found or cannot be cancelled" } ∧
    cancelRequest (some reqCompletedOwned) "p1" none 3 =
      { db := some reqCompletedOwned, httpStatus := 404,
        message := "Request not found or cannot be cancelled" } ∧
    (cancelRequest (some reqActive) "p1" (some "resolved") 3 =
      { db := some (cancelledReq reqActive (some "resolved") 3),
        httpStatus := 200, message := "Request cancelled successfully" } ∧
      (cancelledReq reqActive (some "resolved") 3).status =
        ReqStatus.cancelled ∧
      (cancelledReq reqActive (some "resolved") 3).cancelledAt = some 3 ∧
      (cancelledReq reqActive (some "resolved") 3).cancellationReason =
        some "resolved") :=
  ⟨(cancelRequest_spec none "p1" none 3).1 rfl,
   ((cancelRequest_spec (some reqCompletedOwned) "p1" none 3).2
      reqCompletedOwned rfl).1 (Or.inr (by decide)),
   ((cancelRequest_spec (some reqActive) "p1" (some "resolved") 3).2
      reqActive rfl).2 rfl (Or.inl rfl)⟩

/-- C3 counterexample. When `notification.save()` fails after
`request.save()` has persisted the mutation, the respond route's single
catch-all answers HTTP 500 ('Server error') — the operation does NOT report
success, refuting "a notification failure never causes the lifecycle
operation to fail". (The persisted request state is indeed unaffected: the
store still holds the mutated request.) -/
theorem respondHandler_notifFailure_reports_500 :
    (respondHandler (some reqActive) "d1" RespStatus.accepted none 0 true).db =
      some reqMatchedSolo ∧
    recordDonorResponse (some reqActive) "d1" RespStatus.accepted none 0 =
      .ok reqMatchedSolo ∧
    (respondHandler (some reqActive) "d1" RespStatus.accepted none 0
      true).httpStatus = 500 ∧
    (respondHandler (some reqActive) "d1" RespStatus.accepted none 0
      false).httpStatus = 200 := by decide

/-- C3 (amended). A notification-dispatch failure occurring after the
request mutation has been persisted never rolls the mutation back — the
stored request equals the successful-run state — but the operation does not
report success: the handler answers HTTP 500 instead of 200, and no
notification is saved. -/
theorem respondHandler_notifFailure_persists :
    ∀ (r : BloodRequest) (d : String) (st : RespStatus)
      (notes : Option String) (now : Int),
    (r.status = ReqStatus.active ∨ r.status = ReqStatus.matched) →
    (respondHandler (some r) d st notes now true).db =
      (respondHandler (some r) d st notes now false).db ∧
    (respondHandler (some r) d st notes now true).db =
      some (applyResponse r d st notes now) ∧
    recordDonorResponse (some r) d st notes now =
      .ok (applyResponse r d st notes now) ∧
    (respondHandler (some r) d st notes now true).httpStatus = 500 ∧
    (respondHandler (some r) d st notes now true).savedNotification = none ∧
    (respondHandler (some r) d st notes now false).httpStatus = 200 := by
  intro r d st notes now hst
  have hok : ¬(r.status ≠ ReqStatus.active ∧ r.status ≠ ReqStatus.matched) := by
    rcases hst with h | h <;> rw [h] <;> simp
  have hresp : respondToRequest r d st notes now =
      .ok (applyResponse r d st notes now) := by
    simp only [respondToRequest, if_neg hok]
  refine ⟨?_, ?_, ?_, ?_, ?_, ?_⟩ <;>
    simp [respondHandler, recordDonorResponse, hresp]

/-- Witness for C3 (amended): the notification-failure run on a concrete
active request. -/
theorem respondHandler_notifFailure_persists_witness :
    (respondHandler (some reqActive) "d2" RespStatus.declined none 4 true).db =
      (respondHandler (some reqActive) "d2" RespStatus.declined none 4
        false).db ∧
    (respondHandler (some reqActive) "d2" RespStatus.declined none 4 true).db =
      some (applyResponse reqActive "d2" RespStatus.declined none 4) ∧
    recordDonorResponse (some reqActive) "d2" RespStatus.declined none 4 =
      .ok (applyResponse reqActive "d2" RespStatus.declined none 4) ∧
    (respondHandler (some reqActive) "d2" RespStatus.declined none 4
      true).httpStatus = 500 ∧
    (respondHandler (some reqActive) "d2" RespStatus.declined none 4
      true).savedNotification = none ∧
    (respondHandler (some reqActive) "d2" RespStatus.declined none 4
      false).httpStatus = 200 :=
  respondHandler_notifFailure_persists reqActive "d2" RespStatus.declined
    none 4 (Or.inl rfl)

/-- The store query plus the in-handler `isEligibleToDonate` re-check filter
exactly the spec's candidate predicate: compatibility (or no filter),
eligibility, and range — the query's role/availability/verification
conditions are subsumed by eligibility. -/
theorem queryFilter_and_eligible (btf : Option String) (radius : Nat)
    (now : Int) (distM : User → Nat) (d : User) :
    (donorQueryFilter btf radius distM d && isEligibleToDonate d now) =
      specQualifies btf radius now distM d := by
  by_cases h1 : d.userType = UserType.donor <;>
  by_cases h2 : d.isAvailable = true <;>
  by_cases h3 : d.isVerified = true <;>
  cases h : d.lastDonationDate <;>
  cases btf <;>
  simp_all [donorQueryFilter, specQualifies, isEligibleToDonate] <;>
  simp [Bool.and_comm, Bool.and_left_comm, Bool.and_assoc]

/-- C6. Donor search returns exactly the donors whose blood type is
compatible with the requested type (all donors when the filter is omitted),
who are eligible at evaluation time, and whose distance is within the
radius; each returned record is the `-password -medicalHistory` projection
(`User.toPublic`) with the rounded distance; the result is ordered ascending
by its distance field; and when no donor qualifies the result is the empty
list, not an error. -/
theorem findDonors_spec :
    ∀ (btf : Option String) (radius : Nat) (now : Int) (donors : List User)
      (distM : User → Nat),
    (∀ p, p ∈ findDonors btf radius now donors distM ↔
      ∃ d, d ∈ donors ∧ specQualifies btf radius now distM d = true ∧
        p = { donor := User.toPublic d,
              distance := roundKmTenths (distM d) }) ∧
    (findDonors btf radius now donors distM).Sorted distLE ∧
    ((∀ d ∈ donors, specQualifies btf radius now distM d = false) →
      findDonors btf radius now donors distM = []) := by
  intro btf radius now donors distM
  have hmem : ∀ p, p ∈ findDonors btf radius now donors distM ↔
      ∃ d, d ∈ donors ∧ specQualifies btf radius now distM d = true ∧
        p = { donor := User.toPublic d,
              distance := roundKmTenths (distM d) } := by
    intro p
    unfold findDonors
    rw [List.mem_insertionSort]
    constructor
    · intro hp
      obtain ⟨d, hd, rfl⟩ := List.mem_map.mp hp
      obtain ⟨hd2, helig⟩ := List.mem_filter.mp hd
      obtain ⟨hd3, hquery⟩ := List.mem_filter.mp hd2
      refine ⟨d, hd3, ?_, rfl⟩
      rw [← queryFilter_and_eligible btf radius now distM d]
      rw [Bool.and_eq_true]
      exact ⟨hquery, helig⟩
    · rintro ⟨d, hd, hq, rfl⟩
      rw [← queryFilter_and_eligible btf radius now distM d,
        Bool.and_eq_true] at hq
      apply List.mem_map.mpr
      refine ⟨d, ?_, rfl⟩
      exact List.mem_filter.mpr ⟨List.mem_filter.mpr ⟨hd, hq.1⟩, hq.2⟩
  refine ⟨hmem, ?_, ?_⟩
  · unfold findDonors
    exact List.sorted_insertionSort distLE _
  · intro hall
    apply List.eq_nil_iff_forall_not_mem.mpr
    intro p hp
    obtain ⟨d, hd, hq, _⟩ := (hmem p).mp hp
    rw [hall d hd] at hq
    cases hq

/-- An unverified donor, who never qualifies for search results. -/
def donorUnverified : User := { donorOk with isVerified := false }

/-- A degenerate distance oracle placing every donor at the origin. -/
def distZero : User → Nat := fun _ => 0

/-- Witness for C6: the no-qualifying-donor conjunct at a concrete donor
list — an unverified donor produces the empty result. -/
theorem findDonors_spec_witness :
    findDonors none 50 0 [donorUnverified] distZero = [] :=
  (findDonors_spec none 50 0 [donorUnverified] distZero).2.2 (by decide)
